import Mathlib

/-!
Verification of the AudD recognition gateway (src/main.py): a shallow
embedding of the request-forwarding and result-normalization logic, plus
proofs about it.

Modelling conventions:
* Parsed JSON values (what `r.json()` returns) are the inductive `Json`;
  Python `None` is `Json.null`, dicts are association lists.
* Python truthiness (`if not x`) is `jsonTruthy`.
* `d.get(k)` on a dict returns `Option Json`; calling `.get` on a
  non-dict raises `AttributeError`, modelled by `pyGet` returning
  `Except String (Option Json)`.
* `x or {}` is `pyOrEmpty`, `x or "dflt"` on optional strings is `pyStrOr`.
* `str.strip()` is `pyStrip`, `str.startswith(p)` is `pyStartsWith`.
* The single outbound `requests.post` call is modelled by a
  `ProviderBehavior` parameter (transport exception, unparseable body, or
  parsed JSON body), and each endpoint returns the HTTP response together
  with `Option` of the outbound request it built, so that "no outbound
  call was issued" is the second component being `none`.
* An `HTTPException(status, detail)` is `Resp.httpError status detail`;
  an uncaught Python exception (server 500) is `Resp.crash`.
-/

namespace AuddGateway

/-- Parsed JSON values, as returned by `r.json()` in the source. -/
inductive Json where
  | null : Json
  | bool (b : Bool) : Json
  | num (n : Int) : Json
  | str (s : String) : Json
  | arr (elems : List Json) : Json
  | obj (fields : List (String × Json)) : Json

/-- Dictionary lookup, first binding wins (Python dicts have unique keys). -/
def jlookup : List (String × Json) → String → Option Json
  | [], _ => none
  | (k, v) :: rest, key => if k = key then some v else jlookup rest key

/-- Key lookup on a `Json` value for stating properties; `none` on non-objects. -/
def jget (j : Json) (k : String) : Option Json :=
  match j with
  | Json.obj fs => jlookup fs k
  | _ => none

/-- The list of keys of a JSON object (used to state shape invariants). -/
def jkeys (j : Json) : List String :=
  match j with
  | Json.obj fs => fs.map Prod.fst
  | _ => []

/-- Python truthiness of a parsed JSON value: `None`, `False`, `0`, `""`,
`[]` and the empty dict are falsy. -/
def jsonTruthy : Json → Bool
  | Json.null => false
  | Json.bool b => b
  | Json.num n => !(n == 0)
  | Json.str s => !s.data.isEmpty
  | Json.arr elems => !elems.isEmpty
  | Json.obj fields => !fields.isEmpty

/-- Python `d.get(k)`: returns the value (or `None`) on a dict, raises
`AttributeError` on anything else. -/
def pyGet (j : Json) (k : String) : Except String (Option Json) :=
  match j with
  | Json.obj fs => Except.ok (jlookup fs k)
  | _ => Except.error "AttributeError: object has no attribute get"

/-- Python `x or dict()` where `x` came from a `.get`: the value if truthy,
otherwise the empty dict. -/
def pyOrEmpty (x : Option Json) : Json :=
  match x with
  | some v => if jsonTruthy v then v else Json.obj []
  | none => Json.obj []

/-- A Python value that may be `None`, serialized into JSON: `None` becomes
`null`. -/
def noneToNull (x : Option Json) : Json := x.getD Json.null

/-- The characters stripped by Python `str.strip()` with no argument. -/
def isSpaceChar (c : Char) : Bool :=
  c == ' ' || c == '\t' || c == '\n' || c == '\r' || c == '\x0b' || c == '\x0c'

/-- Python `s.strip()`: remove leading and trailing whitespace. -/
def pyStrip (s : String) : String :=
  String.mk (((s.data.dropWhile isSpaceChar).reverse.dropWhile isSpaceChar).reverse)

/-- Python `s.startswith(p)`. -/
def pyStartsWith (s p : String) : Bool :=
  p.data.isPrefixOf s.data

/-- Truthiness of `os.getenv(...)`: unset (`None`) and the empty string are
falsy. -/
def strOptTruthy : Option String → Bool
  | none => false
  | some s => !s.data.isEmpty

/-- Python `x or dflt` on an optional string (`file.filename or "clip.mp3"`). -/
def pyStrOr (x : Option String) (dflt : String) : String :=
  match x with
  | none => dflt
  | some s => if s.data.isEmpty then dflt else s

/-- The check `data.get("status") != "success"`, as a positive test:
`true` exactly when the value is the string `"success"`. -/
def isSuccessStatus (st : Option Json) : Bool :=
  match st with
  | some (Json.str s) => s == "success"
  | _ => false

/-- The `links` dict built by `normalize_audd_result` (src/main.py lines
137-142): each chain `(result.get(k) or dict()).get(k2)` short-circuits to
`None` when an intermediate is absent or falsy, but raises if an
intermediate is a truthy non-dict. -/
def extract_links (fs : List (String × Json)) : Except String Json :=
  match pyGet (pyOrEmpty (jlookup fs "apple_music")) "url" with
  | Except.error m => Except.error m
  | Except.ok am =>
    match pyGet (pyOrEmpty (jlookup fs "spotify")) "external_urls" with
    | Except.error m => Except.error m
    | Except.ok ext =>
      match pyGet (pyOrEmpty ext) "spotify" with
      | Except.error m => Except.error m
      | Except.ok sp =>
        match pyGet (pyOrEmpty (jlookup fs "deezer")) "link" with
        | Except.error m => Except.error m
        | Except.ok dz =>
          Except.ok (Json.obj
            [("apple_music", noneToNull am),
             ("spotify", noneToNull sp),
             ("deezer", noneToNull dz),
             ("audd", noneToNull (jlookup fs "song_link"))])

/-- `normalize_audd_result` (src/main.py lines 129-151): convert the AudD
result into the flat frontend structure.  The scalar `result.get(...)`
calls require `result` to be a dict (otherwise `AttributeError`); absent
keys become `null` in the serialized output. -/
def normalize_audd_result (result : Json) : Except String Json :=
  match result with
  | Json.obj fs =>
    match extract_links fs with
    | Except.error m => Except.error m
    | Except.ok links =>
      Except.ok (Json.obj
        [("found", Json.bool true),
         ("title", noneToNull (jlookup fs "title")),
         ("artist", noneToNull (jlookup fs "artist")),
         ("album", noneToNull (jlookup fs "album")),
         ("release_date", noneToNull (jlookup fs "release_date")),
         ("timecode", noneToNull (jlookup fs "timecode")),
         ("links", links)])
  | _ => Except.error "AttributeError: object has no attribute get"

/-- Whether a JSON value is a dict. -/
def isObj : Json → Bool
  | Json.obj _ => true
  | _ => false

/-- A value sitting where the source writes `(x or dict()).get(...)` is safe
when it is absent, a dict, or falsy; a truthy non-dict there raises
`AttributeError`. -/
def nestedOk (x : Option Json) : Bool :=
  match x with
  | none => true
  | some v => isObj v || !jsonTruthy v

/-- When the spotify field is a dict, its `external_urls` entry must in turn
be absent, a dict, or falsy. -/
def spotifyInnerOk (x : Option Json) : Bool :=
  match x with
  | some (Json.obj gs) => nestedOk (jlookup gs "external_urls")
  | _ => true

/-- A well-formed or partially-empty AudD result object: each nested service
field (`apple_music`, `deezer`, `spotify`, and `spotify.external_urls`),
when present, is a dict or falsy.  Every genuine `ProviderResult` with any
subset of its keys present satisfies this. -/
def wellFormedResult (fs : List (String × Json)) : Bool :=
  nestedOk (jlookup fs "apple_music") &&
  nestedOk (jlookup fs "deezer") &&
  nestedOk (jlookup fs "spotify") &&
  spotifyInnerOk (jlookup fs "spotify")

/-- The value of link `k` inside the `links` object of a normalized result. -/
def linkOf (j : Json) (k : String) : Option Json :=
  match jget j "links" with
  | some l => jget l k
  | none => none

/-- Outcome of the single outbound `requests.post` to the provider:
the post raises (transport failure / timeout), or a response arrives whose
body `r.json()` fails to parse, or a response arrives that parses to `data`. -/
inductive ProviderBehavior where
  | transportError (msg : String) : ProviderBehavior
  | unparseable (msg : String) : ProviderBehavior
  | parsed (data : Json) : ProviderBehavior

/-- The HTTP response produced by an endpoint: a JSON body (200), an
`HTTPException(status, detail)`, or an uncaught Python exception (500). -/
inductive Resp where
  | ok (body : Json) : Resp
  | httpError (status : Nat) (detail : String) : Resp
  | crash (msg : String) : Resp

/-- The outbound request built on the URL path (src/main.py lines 78-86). -/
structure UrlRequest where
  api_token : String
  url : String
  return_fields : String
  timeout_secs : Nat

/-- The outbound multipart request built on the file path (src/main.py
lines 108-114). -/
structure FileRequest where
  api_token : String
  return_fields : String
  filename : String
  content : List Nat
  content_type : String
  timeout_secs : Nat

/-- The `UploadFile` handed to `identify_by_file`: optional filename and
content type, plus the raw bytes `await file.read()` yields. -/
structure UploadFileInput where
  filename : Option String
  content_type : Option String
  content : List Nat

/-- Shared tail of both endpoints (src/main.py lines 87-98 and 115-126):
interpret the provider call outcome.  Transport and parse failures were
raised inside the `try` and are both surfaced as 502 with the exception
text appended; a falsy or non-`"success"` body is the generic 502; a falsy
`result` is `{found: false}`; otherwise the result is normalized. -/
def handle_provider_data (call : ProviderBehavior) : Resp :=
  match call with
  | ProviderBehavior.transportError m =>
      Resp.httpError 502 ("Failed contacting recognition service: " ++ m)
  | ProviderBehavior.unparseable m =>
      Resp.httpError 502 ("Failed contacting recognition service: " ++ m)
  | ProviderBehavior.parsed data =>
      if jsonTruthy data = false then Resp.httpError 502 "Recognition service error"
      else
        match pyGet data "status" with
        | Except.error m => Resp.crash m
        | Except.ok st =>
          if isSuccessStatus st = false then Resp.httpError 502 "Recognition service error"
          else
            match pyGet data "result" with
            | Except.error m => Resp.crash m
            | Except.ok res =>
              match res with
              | none => Resp.ok (Json.obj [("found", Json.bool false)])
              | some r =>
                if jsonTruthy r = false then Resp.ok (Json.obj [("found", Json.bool false)])
                else
                  match normalize_audd_result r with
                  | Except.ok j => Resp.ok j
                  | Except.error m => Resp.crash m

/-- `identify_by_url` (src/main.py lines 68-98).  Returns the HTTP response
together with the outbound request, `none` when no outbound call was made. -/
def identify_by_url (token : Option String) (payload_url : String)
    (call : ProviderBehavior) : Resp × Option UrlRequest :=
  if strOptTruthy token = false then
    (Resp.httpError 400 "AUDD_API_TOKEN env var is not set on the server", none)
  else
    if (pyStartsWith (pyStrip payload_url) "http://" ||
        pyStartsWith (pyStrip payload_url) "https://") = false then
      (Resp.httpError 422 "Please provide a valid URL starting with http(s)://", none)
    else
      (handle_provider_data call,
       some ⟨token.getD "", pyStrip payload_url, "timecode,deezer,spotify,apple_music", 30⟩)

/-- `identify_by_file` (src/main.py lines 101-126).  Returns the HTTP
response together with the outbound multipart request, `none` when no
outbound call was made. -/
def identify_by_file (token : Option String) (file : UploadFileInput)
    (call : ProviderBehavior) : Resp × Option FileRequest :=
  if strOptTruthy token = false then
    (Resp.httpError 400 "AUDD_API_TOKEN env var is not set on the server", none)
  else
    (handle_provider_data call,
     some ⟨token.getD "", "timecode,deezer,spotify,apple_music",
           pyStrOr file.filename "clip.mp3", file.content,
           pyStrOr file.content_type "audio/mpeg", 60⟩)

/-! ### Helper lemmas -/

lemma jlookup_nil (k : String) : jlookup [] k = none := rfl

/-- Decomposition of a successful `extract_links`: all four chain lookups
succeeded and the result is the four-entry links object. -/
lemma extract_links_shape (fs : List (String × Json)) (l : Json)
    (h : extract_links fs = Except.ok l) :
    ∃ am ext sp dz,
      pyGet (pyOrEmpty (jlookup fs "apple_music")) "url" = Except.ok am ∧
      pyGet (pyOrEmpty (jlookup fs "spotify")) "external_urls" = Except.ok ext ∧
      pyGet (pyOrEmpty ext) "spotify" = Except.ok sp ∧
      pyGet (pyOrEmpty (jlookup fs "deezer")) "link" = Except.ok dz ∧
      l = Json.obj
        [("apple_music", noneToNull am), ("spotify", noneToNull sp),
         ("deezer", noneToNull dz), ("audd", noneToNull (jlookup fs "song_link"))] := by
  unfold extract_links at h
  split at h
  next m heq1 => exact Except.noConfusion h
  next am heq1 =>
    split at h
    next m heq2 => exact Except.noConfusion h
    next ext heq2 =>
      split at h
      next m heq3 => exact Except.noConfusion h
      next sp heq3 =>
        split at h
        next m heq4 => exact Except.noConfusion h
        next dz heq4 =>
          injection h with h5
          exact ⟨am, ext, sp, dz, heq1, heq2, heq3, heq4, h5.symm⟩

/-- Decomposition of a successful `normalize_audd_result`: the input was a
dict, the links extraction succeeded, and the output is the fixed
seven-entry object. -/
lemma normalize_shape (r j : Json) (h : normalize_audd_result r = Except.ok j) :
    ∃ fs l, r = Json.obj fs ∧ extract_links fs = Except.ok l ∧
      j = Json.obj
        [("found", Json.bool true),
         ("title", noneToNull (jlookup fs "title")),
         ("artist", noneToNull (jlookup fs "artist")),
         ("album", noneToNull (jlookup fs "album")),
         ("release_date", noneToNull (jlookup fs "release_date")),
         ("timecode", noneToNull (jlookup fs "timecode")),
         ("links", l)] := by
  unfold normalize_audd_result at h
  split at h
  next fs =>
    split at h
    next m heq1 => exact Except.noConfusion h
    next links heq1 =>
      injection h with h2
      exact ⟨fs, links, rfl, heq1, h2.symm⟩
  next x hne => exact Except.noConfusion h

/-- Every outcome of the shared provider-response handling is a 502, a
crash, the `found: false` body, or a successful normalization. -/
lemma handle_provider_data_cases (call : ProviderBehavior) :
    (∃ m, handle_provider_data call = Resp.httpError 502 m) ∨
    (∃ m, handle_provider_data call = Resp.crash m) ∨
    handle_provider_data call = Resp.ok (Json.obj [("found", Json.bool false)]) ∨
    (∃ r j, normalize_audd_result r = Except.ok j ∧
      handle_provider_data call = Resp.ok j) := by
  cases call with
  | transportError m => exact Or.inl ⟨_, rfl⟩
  | unparseable m => exact Or.inl ⟨_, rfl⟩
  | parsed data =>
    simp only [handle_provider_data]
    split
    · exact Or.inl ⟨_, rfl⟩
    · split
      · exact Or.inr (Or.inl ⟨_, rfl⟩)
      · split
        · exact Or.inl ⟨_, rfl⟩
        · split
          · exact Or.inr (Or.inl ⟨_, rfl⟩)
          · split
            · exact Or.inr (Or.inr (Or.inl rfl))
            · split
              · exact Or.inr (Or.inr (Or.inl rfl))
              · split
                · next heq => exact Or.inr (Or.inr (Or.inr ⟨_, _, heq, rfl⟩))
                · exact Or.inr (Or.inl ⟨_, rfl⟩)

/-- `data.get("status") != "success"` holds exactly when the status value
is not the string `"success"`. -/
lemma isSuccessStatus_eq_false (st : Option Json)
    (h : st ≠ some (Json.str "success")) : isSuccessStatus st = false := by
  cases st with
  | none => rfl
  | some v =>
    cases v
    case str s =>
      by_cases hs : s = "success"
      · exact absurd (by rw [hs]) h
      · simp [isSuccessStatus, hs]
    all_goals rfl

/-- A parsed dict whose status is not `"success"` is answered with the
generic 502. -/
lemma handle_non_success (fs : List (String × Json))
    (h : isSuccessStatus (jlookup fs "status") = false) :
    handle_provider_data (ProviderBehavior.parsed (Json.obj fs)) =
      Resp.httpError 502 "Recognition service error" := by
  cases fs with
  | nil => rfl
  | cons p rest =>
    simp [handle_provider_data, jsonTruthy, pyGet, h]

/-- A parsed dict with status `"success"` and an absent or empty result is
answered with `{found: false}`. -/
lemma handle_success_empty (fs : List (String × Json))
    (hst : jlookup fs "status" = some (Json.str "success"))
    (hres : jlookup fs "result" = none ∨ jlookup fs "result" = some (Json.obj [])) :
    handle_provider_data (ProviderBehavior.parsed (Json.obj fs)) =
      Resp.ok (Json.obj [("found", Json.bool false)]) := by
  cases fs with
  | nil => exact absurd hst (by simp [jlookup])
  | cons p rest =>
    rcases hres with hres | hres <;>
      simp [handle_provider_data, jsonTruthy, pyGet, hst, hres, isSuccessStatus]

/-- With a truthy token and a valid URL, `identify_by_url` runs the provider
call and records the outbound request. -/
lemma identify_by_url_run (token : Option String) (u : String)
    (call : ProviderBehavior) (htok : strOptTruthy token = true)
    (hurl : (pyStartsWith (pyStrip u) "http://" ||
             pyStartsWith (pyStrip u) "https://") = true) :
    identify_by_url token u call =
      (handle_provider_data call,
       some ⟨token.getD "", pyStrip u, "timecode,deezer,spotify,apple_music", 30⟩) := by
  simp [identify_by_url, htok, hurl]

/-- With a truthy token, `identify_by_file` runs the provider call and
records the outbound multipart request. -/
lemma identify_by_file_run (token : Option String) (file : UploadFileInput)
    (call : ProviderBehavior) (htok : strOptTruthy token = true) :
    identify_by_file token file call =
      (handle_provider_data call,
       some ⟨token.getD "", "timecode,deezer,spotify,apple_music",
             pyStrOr file.filename "clip.mp3", file.content,
             pyStrOr file.content_type "audio/mpeg", 60⟩) := by
  simp [identify_by_file, htok]

/-- A 200 body from the URL endpoint comes from the shared handler. -/
lemma identify_by_url_ok (token : Option String) (u : String)
    (call : ProviderBehavior) (j : Json)
    (h : (identify_by_url token u call).1 = Resp.ok j) :
    handle_provider_data call = Resp.ok j := by
  unfold identify_by_url at h
  split at h
  · exact Resp.noConfusion h
  · split at h
    · exact Resp.noConfusion h
    · exact h

/-- A 200 body from the file endpoint comes from the shared handler. -/
lemma identify_by_file_ok (token : Option String) (file : UploadFileInput)
    (call : ProviderBehavior) (j : Json)
    (h : (identify_by_file token file call).1 = Resp.ok j) :
    handle_provider_data call = Resp.ok j := by
  unfold identify_by_file at h
  split at h
  · exact Resp.noConfusion h
  · exact h

/-- The shared handler never produces a 422. -/
lemma handle_ne_422 (call : ProviderBehavior) (d : String) :
    handle_provider_data call ≠ Resp.httpError 422 d := by
  rcases handle_provider_data_cases call with ⟨m, hm⟩ | ⟨m, hm⟩ | hm | ⟨r, j, _, hm⟩ <;>
    rw [hm] <;> intro hc
  · injection hc with hc1 hc2
    exact absurd hc1 (by decide)
  · exact Resp.noConfusion hc
  · exact Resp.noConfusion hc
  · exact Resp.noConfusion hc

/-- A 200 body from the shared handler is the `found: false` object or a
normalization result. -/
lemma handle_ok (call : ProviderBehavior) (j : Json)
    (h : handle_provider_data call = Resp.ok j) :
    j = Json.obj [("found", Json.bool false)] ∨
    ∃ r, normalize_audd_result r = Except.ok j := by
  rcases handle_provider_data_cases call with ⟨m, hm⟩ | ⟨m, hm⟩ | hm | ⟨r, j2, hn, hm⟩
  · rw [hm] at h; exact Resp.noConfusion h
  · rw [hm] at h; exact Resp.noConfusion h
  · rw [hm] at h
    injection h with h2
    exact Or.inl h2.symm
  · rw [hm] at h
    injection h with h2
    exact Or.inr ⟨r, h2 ▸ hn⟩

lemma bool_eq_false (b : Bool) (h : ¬ b = true) : b = false := by
  cases b
  · rfl
  · exact absurd rfl h

lemma data_isEmpty_eq_false (s : String) (h : s ≠ "") : s.data.isEmpty = false := by
  cases s with
  | mk data =>
    cases data with
    | nil => exact absurd rfl h
    | cons c cs => rfl

lemma isObj_exists (v : Json) (h : isObj v = true) : ∃ gs, v = Json.obj gs := by
  cases v
  case obj gs => exact ⟨gs, rfl⟩
  all_goals exact Bool.noConfusion h

/-- A `(x or dict()).get(k)` chain cannot raise when `x` is absent, falsy or
a dict. -/
lemma pyGet_pyOrEmpty_ok (x : Option Json) (k : String) (h : nestedOk x = true) :
    ∃ o, pyGet (pyOrEmpty x) k = Except.ok o := by
  cases x with
  | none => exact ⟨none, rfl⟩
  | some v =>
    by_cases ht : jsonTruthy v = true
    · have hobj : isObj v = true := by
        simp only [nestedOk, Bool.or_eq_true, Bool.not_eq_true'] at h
        rcases h with h | h
        · exact h
        · rw [ht] at h; exact Bool.noConfusion h
      obtain ⟨gs, rfl⟩ := isObj_exists v hobj
      exact ⟨jlookup gs k, by simp [pyOrEmpty, ht, pyGet]⟩
    · have hf : jsonTruthy v = false := bool_eq_false _ ht
      exact ⟨none, by simp [pyOrEmpty, hf, pyGet, jlookup]⟩

/-- Computation rule for `extract_links` when the four chain lookups are
known. -/
lemma extract_links_eq (fs : List (String × Json)) (am ext sp dz : Option Json)
    (h1 : pyGet (pyOrEmpty (jlookup fs "apple_music")) "url" = Except.ok am)
    (h2 : pyGet (pyOrEmpty (jlookup fs "spotify")) "external_urls" = Except.ok ext)
    (h3 : pyGet (pyOrEmpty ext) "spotify" = Except.ok sp)
    (h4 : pyGet (pyOrEmpty (jlookup fs "deezer")) "link" = Except.ok dz) :
    extract_links fs = Except.ok (Json.obj
      [("apple_music", noneToNull am), ("spotify", noneToNull sp),
       ("deezer", noneToNull dz), ("audd", noneToNull (jlookup fs "song_link"))]) := by
  unfold extract_links
  simp only [h1, h2, h3, h4]

/-- Computation rule for `normalize_audd_result` on a dict with a known
links extraction. -/
lemma normalize_obj_eq (fs : List (String × Json)) (l : Json)
    (h : extract_links fs = Except.ok l) :
    normalize_audd_result (Json.obj fs) = Except.ok (Json.obj
      [("found", Json.bool true),
       ("title", noneToNull (jlookup fs "title")),
       ("artist", noneToNull (jlookup fs "artist")),
       ("album", noneToNull (jlookup fs "album")),
       ("release_date", noneToNull (jlookup fs "release_date")),
       ("timecode", noneToNull (jlookup fs "timecode")),
       ("links", l)]) := by
  unfold normalize_audd_result
  simp only [h]

/-! ### Claims -/

/-- Claim C3: for every input url that, after trimming whitespace, does not
start with "http://" or "https://", `identify_by_url` fails with a 422
validation error (assuming the credential precondition of the operation)
and issues no outbound call for any credential state. -/
theorem claim_C3 (token : Option String) (u : String) (call : ProviderBehavior)
    (h : (pyStartsWith (pyStrip u) "http://" ||
          pyStartsWith (pyStrip u) "https://") = false) :
    (identify_by_url token u call).2 = none ∧
    (strOptTruthy token = true →
      (identify_by_url token u call).1 =
        Resp.httpError 422 "Please provide a valid URL starting with http(s)://") := by
  by_cases ht : strOptTruthy token = true
  · constructor
    · simp [identify_by_url, ht, h]
    · intro
      simp [identify_by_url, ht, h]
  · have ht2 : strOptTruthy token = false := bool_eq_false _ ht
    constructor
    · simp [identify_by_url, ht2]
    · intro hc
      exact absurd hc (by rw [ht2]; exact Bool.noConfusion)

/-- Witness for C3 at a concrete non-http input. -/
theorem claim_C3_witness :
    (identify_by_url (some "tok") "spotify:track:123"
        (ProviderBehavior.parsed Json.null)).2 = none ∧
    (identify_by_url (some "tok") "spotify:track:123"
        (ProviderBehavior.parsed Json.null)).1 =
      Resp.httpError 422 "Please provide a valid URL starting with http(s)://" :=
  ⟨(claim_C3 (some "tok") "spotify:track:123"
      (ProviderBehavior.parsed Json.null) (by decide)).1,
   (claim_C3 (some "tok") "spotify:track:123"
      (ProviderBehavior.parsed Json.null) (by decide)).2 (by decide)⟩

/-- Claim C4: whenever the provider credential is unset (or empty), both
endpoints fail with the 400 configuration error and make no outbound call,
for every input. -/
theorem claim_C4 (token : Option String) (u : String) (file : UploadFileInput)
    (c1 c2 : ProviderBehavior) (h : strOptTruthy token = false) :
    identify_by_url token u c1 =
      (Resp.httpError 400 "AUDD_API_TOKEN env var is not set on the server", none) ∧
    identify_by_file token file c2 =
      (Resp.httpError 400 "AUDD_API_TOKEN env var is not set on the server", none) := by
  constructor
  · simp [identify_by_url, h]
  · simp [identify_by_file, h]

/-- Witness for C4 with the credential absent. -/
theorem claim_C4_witness :
    identify_by_url none "http://ok.example/a"
        (ProviderBehavior.parsed Json.null) =
      (Resp.httpError 400 "AUDD_API_TOKEN env var is not set on the server", none) ∧
    identify_by_file none ⟨some "a.mp3", some "audio/mpeg", [1, 2]⟩
        (ProviderBehavior.parsed Json.null) =
      (Resp.httpError 400 "AUDD_API_TOKEN env var is not set on the server", none) :=
  claim_C4 none "http://ok.example/a" ⟨some "a.mp3", some "audio/mpeg", [1, 2]⟩
    (ProviderBehavior.parsed Json.null) (ProviderBehavior.parsed Json.null) rfl

/-- Counterexample to C2 as stated: an unparseable provider body is NOT
answered with the fixed generic message; the parse exception text is
appended to the 502 detail instead. -/
theorem claim_C2_counterexample :
    (identify_by_url (some "tok") "http://song.example/a.mp3"
        (ProviderBehavior.unparseable "Expecting value: line 1 column 1 (char 0)")).1 =
      Resp.httpError 502
        "Failed contacting recognition service: Expecting value: line 1 column 1 (char 0)" ∧
    "Failed contacting recognition service: Expecting value: line 1 column 1 (char 0)" ≠
      "Recognition service error" :=
  ⟨rfl, by decide⟩

/-- Claim C2 (amended): a provider response whose body is not parseable
JSON makes both endpoints fail 502 with the detail "Failed contacting
recognition service: " followed by the parse exception text — the same
branch and message format as a transport failure — and the fixed generic
message "Recognition service error" is not used for this case. -/
theorem claim_C2 (token : Option String) (u : String) (file : UploadFileInput)
    (m : String)
    (htok : strOptTruthy token = true)
    (hurl : (pyStartsWith (pyStrip u) "http://" ||
             pyStartsWith (pyStrip u) "https://") = true) :
    (identify_by_url token u (ProviderBehavior.unparseable m)).1 =
      Resp.httpError 502 ("Failed contacting recognition service: " ++ m) ∧
    (identify_by_file token file (ProviderBehavior.unparseable m)).1 =
      Resp.httpError 502 ("Failed contacting recognition service: " ++ m) ∧
    (identify_by_url token u (ProviderBehavior.unparseable m)).1 =
      (identify_by_url token u (ProviderBehavior.transportError m)).1 := by
  rw [identify_by_url_run token u (ProviderBehavior.unparseable m) htok hurl,
      identify_by_file_run token file (ProviderBehavior.unparseable m) htok,
      identify_by_url_run token u (ProviderBehavior.transportError m) htok hurl]
  exact ⟨rfl, rfl, rfl⟩

/-- Witness for C2 at a concrete unparseable body. -/
theorem claim_C2_witness :
    (identify_by_url (some "tok") "https://s.example/x"
        (ProviderBehavior.unparseable "No JSON could be decoded")).1 =
      Resp.httpError 502
        ("Failed contacting recognition service: " ++ "No JSON could be decoded") ∧
    (identify_by_file (some "tok") ⟨none, none, []⟩
        (ProviderBehavior.unparseable "No JSON could be decoded")).1 =
      Resp.httpError 502
        ("Failed contacting recognition service: " ++ "No JSON could be decoded") :=
  ⟨(claim_C2 (some "tok") "https://s.example/x" ⟨none, none, []⟩
      "No JSON could be decoded" rfl rfl).1,
   (claim_C2 (some "tok") "https://s.example/x" ⟨none, none, []⟩
      "No JSON could be decoded" rfl rfl).2.1⟩

/-- Claim C7: a provider response with status "success" whose result object
is empty or absent yields the normal response with body containing only
found = false, from both endpoints. -/
theorem claim_C7 (token : Option String) (u : String) (file : UploadFileInput)
    (fs : List (String × Json))
    (htok : strOptTruthy token = true)
    (hurl : (pyStartsWith (pyStrip u) "http://" ||
             pyStartsWith (pyStrip u) "https://") = true)
    (hst : jlookup fs "status" = some (Json.str "success"))
    (hres : jlookup fs "result" = none ∨ jlookup fs "result" = some (Json.obj [])) :
    (identify_by_url token u (ProviderBehavior.parsed (Json.obj fs))).1 =
      Resp.ok (Json.obj [("found", Json.bool false)]) ∧
    (identify_by_file token file (ProviderBehavior.parsed (Json.obj fs))).1 =
      Resp.ok (Json.obj [("found", Json.bool false)]) := by
  have hh := handle_success_empty fs hst hres
  rw [identify_by_url_run token u (ProviderBehavior.parsed (Json.obj fs)) htok hurl,
      identify_by_file_run token file (ProviderBehavior.parsed (Json.obj fs)) htok]
  exact ⟨hh, hh⟩

/-- Witness for C7 with an absent result and with an empty result object. -/
theorem claim_C7_witness :
    (identify_by_url (some "tok") "http://a.example/s"
        (ProviderBehavior.parsed
          (Json.obj [("status", Json.str "success"), ("result", Json.obj [])]))).1 =
      Resp.ok (Json.obj [("found", Json.bool false)]) ∧
    (identify_by_file (some "tok") ⟨none, none, []⟩
        (ProviderBehavior.parsed
          (Json.obj [("status", Json.str "success"), ("result", Json.obj [])]))).1 =
      Resp.ok (Json.obj [("found", Json.bool false)]) :=
  claim_C7 (some "tok") "http://a.example/s" ⟨none, none, []⟩
    [("status", Json.str "success"), ("result", Json.obj [])]
    rfl rfl rfl (Or.inr rfl)

/-- Claim C8: every parseable provider response object whose status field is
not the string "success" is answered from both endpoints with the generic
502 upstream error, regardless of any partial result payload present. -/
theorem claim_C8 (token : Option String) (u : String) (file : UploadFileInput)
    (fs : List (String × Json))
    (htok : strOptTruthy token = true)
    (hurl : (pyStartsWith (pyStrip u) "http://" ||
             pyStartsWith (pyStrip u) "https://") = true)
    (hst : jlookup fs "status" ≠ some (Json.str "success")) :
    (identify_by_url token u (ProviderBehavior.parsed (Json.obj fs))).1 =
      Resp.httpError 502 "Recognition service error" ∧
    (identify_by_file token file (ProviderBehavior.parsed (Json.obj fs))).1 =
      Resp.httpError 502 "Recognition service error" := by
  have hh := handle_non_success fs (isSuccessStatus_eq_false _ hst)
  rw [identify_by_url_run token u (ProviderBehavior.parsed (Json.obj fs)) htok hurl,
      identify_by_file_run token file (ProviderBehavior.parsed (Json.obj fs)) htok]
  exact ⟨hh, hh⟩

/-- Witness for C8 at `status: "error"` with a partial result payload. -/
theorem claim_C8_witness :
    (identify_by_url (some "tok") "http://a.example/s"
        (ProviderBehavior.parsed
          (Json.obj [("status", Json.str "error"),
                     ("result", Json.obj [("title", Json.str "Partial")])]))).1 =
      Resp.httpError 502 "Recognition service error" ∧
    (identify_by_file (some "tok") ⟨none, none, []⟩
        (ProviderBehavior.parsed
          (Json.obj [("status", Json.str "error"),
                     ("result", Json.obj [("title", Json.str "Partial")])]))).1 =
      Resp.httpError 502 "Recognition service error" :=
  claim_C8 (some "tok") "http://a.example/s" ⟨none, none, []⟩
    [("status", Json.str "error"), ("result", Json.obj [("title", Json.str "Partial")])]
    rfl rfl (by simp [jlookup])

/-- Claim C9: whenever the credential is set, `identify_by_file` builds the
outbound multipart request with an empty or absent filename replaced by
"clip.mp3" and an empty or absent content-type replaced by "audio/mpeg"
(keeping non-empty values as given), and the endpoint performs no URL
validation: no input ever produces a 422. -/
theorem claim_C9 :
    (∀ (token : Option String) (file : UploadFileInput) (call : ProviderBehavior),
      strOptTruthy token = true →
      ∃ req, (identify_by_file token file call).2 = some req ∧
        req.timeout_secs = 60 ∧
        ((file.filename = none ∨ file.filename = some "") →
          req.filename = "clip.mp3") ∧
        (∀ s, file.filename = some s → s ≠ "" → req.filename = s) ∧
        ((file.content_type = none ∨ file.content_type = some "") →
          req.content_type = "audio/mpeg") ∧
        (∀ s, file.content_type = some s → s ≠ "" → req.content_type = s)) ∧
    (∀ (token : Option String) (file : UploadFileInput) (call : ProviderBehavior)
      (d : String),
      (identify_by_file token file call).1 ≠ Resp.httpError 422 d) := by
  constructor
  · intro token file call htok
    refine ⟨_, congrArg Prod.snd (identify_by_file_run token file call htok),
      rfl, ?_, ?_, ?_, ?_⟩
    · rintro (hf | hf) <;> simp [hf, pyStrOr]
    · intro s hf hs
      simp [hf, pyStrOr, data_isEmpty_eq_false s hs]
    · rintro (hf | hf) <;> simp [hf, pyStrOr]
    · intro s hf hs
      simp [hf, pyStrOr, data_isEmpty_eq_false s hs]
  · intro token file call d
    by_cases htok : strOptTruthy token = true
    · rw [congrArg Prod.fst (identify_by_file_run token file call htok)]
      exact handle_ne_422 call d
    · have ht2 : strOptTruthy token = false := bool_eq_false _ htok
      simp only [identify_by_file, ht2, if_pos]
      intro hc
      injection hc with hc1 hc2
      exact absurd hc1 (by decide)

/-- Witness for C9: empty filename and content-type fall back, and a
non-URL input is not rejected with 422. -/
theorem claim_C9_witness :
    (∃ req, (identify_by_file (some "tok") ⟨some "", none, [7]⟩
        (ProviderBehavior.transportError "timeout")).2 = some req ∧
      req.timeout_secs = 60 ∧
      (((⟨some "", none, [7]⟩ : UploadFileInput).filename = none ∨
        (⟨some "", none, [7]⟩ : UploadFileInput).filename = some "") →
        req.filename = "clip.mp3") ∧
      (∀ s, (⟨some "", none, [7]⟩ : UploadFileInput).filename = some s → s ≠ "" →
        req.filename = s) ∧
      (((⟨some "", none, [7]⟩ : UploadFileInput).content_type = none ∨
        (⟨some "", none, [7]⟩ : UploadFileInput).content_type = some "") →
        req.content_type = "audio/mpeg") ∧
      (∀ s, (⟨some "", none, [7]⟩ : UploadFileInput).content_type = some s → s ≠ "" →
        req.content_type = s)) ∧
    (identify_by_file (some "tok") ⟨some "", none, [7]⟩
        (ProviderBehavior.transportError "timeout")).1 ≠
      Resp.httpError 422 "Please provide a valid URL starting with http(s)://" :=
  ⟨claim_C9.1 (some "tok") ⟨some "", none, [7]⟩
      (ProviderBehavior.transportError "timeout") rfl,
   claim_C9.2 (some "tok") ⟨some "", none, [7]⟩
      (ProviderBehavior.transportError "timeout")
      "Please provide a valid URL starting with http(s)://"⟩

/-- Counterexample to C1 as stated: a found = false response contains only
the key "found" — the four link fields are omitted, not present as null,
and the key set differs from found = true responses. -/
theorem claim_C1_counterexample :
    (identify_by_url (some "tok") "http://a.example/x"
        (ProviderBehavior.parsed
          (Json.obj [("status", Json.str "success"), ("result", Json.obj [])]))).1 =
      Resp.ok (Json.obj [("found", Json.bool false)]) ∧
    jget (Json.obj [("found", Json.bool false)]) "apple_music" = none ∧
    jkeys (Json.obj [("found", Json.bool false)]) = ["found"] ∧
    jkeys (Json.obj [("found", Json.bool false)]) ≠
      ["found", "title", "artist", "album", "release_date", "timecode", "links"] :=
  ⟨rfl, rfl, rfl, by decide⟩

/-- Claim C1 (amended): in every 200 response body of either endpoint, when
found is false the body contains exactly the single key "found" and no
other field; when found is true the body has the stable seven-key shape
whose links object always carries all four link keys (absent links are
null, not omitted). -/
theorem claim_C1 (token : Option String) (u : String) (file : UploadFileInput)
    (call : ProviderBehavior) (j : Json)
    (h : (identify_by_url token u call).1 = Resp.ok j ∨
         (identify_by_file token file call).1 = Resp.ok j) :
    (jget j "found" = some (Json.bool false) →
      j = Json.obj [("found", Json.bool false)]) ∧
    (jget j "found" = some (Json.bool true) →
      jkeys j = ["found", "title", "artist", "album", "release_date", "timecode", "links"] ∧
      ∃ l, jget j "links" = some l ∧
        jkeys l = ["apple_music", "spotify", "deezer", "audd"]) := by
  have hh : handle_provider_data call = Resp.ok j := by
    rcases h with h | h
    · exact identify_by_url_ok token u call j h
    · exact identify_by_file_ok token file call j h
  rcases handle_ok call j hh with hj | ⟨r, hr⟩
  · subst hj
    constructor
    · intro
      rfl
    · intro hfound
      exact absurd hfound (by simp [jget, jlookup])
  · rcases normalize_shape r j hr with ⟨fs, l, hrfs, hl, hj⟩
    rcases extract_links_shape fs l hl with ⟨am, ext, sp, dz, _, _, _, _, hlshape⟩
    subst hj
    constructor
    · intro hfound
      exact absurd hfound (by simp [jget, jlookup])
    · intro
      refine ⟨by simp [jkeys], l, by simp [jget, jlookup], ?_⟩
      rw [hlshape]
      simp [jkeys]

/-- Witness for C1 at a found = true response. -/
theorem claim_C1_witness :
    jkeys (Json.obj
        [("found", Json.bool true), ("title", Json.str "T"), ("artist", Json.null),
         ("album", Json.null), ("release_date", Json.null), ("timecode", Json.null),
         ("links", Json.obj
           [("apple_music", Json.null), ("spotify", Json.null),
            ("deezer", Json.null), ("audd", Json.null)])]) =
      ["found", "title", "artist", "album", "release_date", "timecode", "links"] ∧
    ∃ l, jget (Json.obj
        [("found", Json.bool true), ("title", Json.str "T"), ("artist", Json.null),
         ("album", Json.null), ("release_date", Json.null), ("timecode", Json.null),
         ("links", Json.obj
           [("apple_music", Json.null), ("spotify", Json.null),
            ("deezer", Json.null), ("audd", Json.null)])]) "links" = some l ∧
      jkeys l = ["apple_music", "spotify", "deezer", "audd"] :=
  (claim_C1 (some "tok") "http://a.example/song" ⟨none, none, []⟩
    (ProviderBehavior.parsed
      (Json.obj [("status", Json.str "success"),
                 ("result", Json.obj [("title", Json.str "T")])]))
    (Json.obj
      [("found", Json.bool true), ("title", Json.str "T"), ("artist", Json.null),
       ("album", Json.null), ("release_date", Json.null), ("timecode", Json.null),
       ("links", Json.obj
         [("apple_music", Json.null), ("spotify", Json.null),
          ("deezer", Json.null), ("audd", Json.null)])])
    (Or.inl rfl)).2 rfl

/-- Claim C10: the output of a successful normalization has exactly the
seven top-level keys and exactly the four link keys, and every other field
of the provider result is dropped. -/
theorem claim_C10 (result j : Json)
    (h : normalize_audd_result result = Except.ok j) :
    jkeys j = ["found", "title", "artist", "album", "release_date", "timecode", "links"] ∧
    (∃ l, jget j "links" = some l ∧
      jkeys l = ["apple_music", "spotify", "deezer", "audd"]) ∧
    (∀ k, ¬ k ∈ ["found", "title", "artist", "album", "release_date", "timecode", "links"] →
      jget j k = none) := by
  rcases normalize_shape result j h with ⟨fs, l, hrfs, hl, hj⟩
  rcases extract_links_shape fs l hl with ⟨am, ext, sp, dz, _, _, _, _, hlshape⟩
  subst hj
  refine ⟨by simp [jkeys], ⟨l, by simp [jget, jlookup], ?_⟩, ?_⟩
  · rw [hlshape]
    simp [jkeys]
  · intro k hk
    simp only [List.mem_cons, List.not_mem_nil, or_false, not_or] at hk
    obtain ⟨h1, h2, h3, h4, h5, h6, h7⟩ := hk
    simp [jget, jlookup, Ne.symm h1, Ne.symm h2, Ne.symm h3, Ne.symm h4,
      Ne.symm h5, Ne.symm h6, Ne.symm h7]

/-- Witness for C10: an extra provider field ("score") is dropped. -/
theorem claim_C10_witness :
    jkeys (Json.obj
        [("found", Json.bool true), ("title", Json.str "T"), ("artist", Json.null),
         ("album", Json.null), ("release_date", Json.null), ("timecode", Json.null),
         ("links", Json.obj
           [("apple_music", Json.null), ("spotify", Json.null),
            ("deezer", Json.null), ("audd", Json.null)])]) =
      ["found", "title", "artist", "album", "release_date", "timecode", "links"] ∧
    jget (Json.obj
        [("found", Json.bool true), ("title", Json.str "T"), ("artist", Json.null),
         ("album", Json.null), ("release_date", Json.null), ("timecode", Json.null),
         ("links", Json.obj
           [("apple_music", Json.null), ("spotify", Json.null),
            ("deezer", Json.null), ("audd", Json.null)])]) "score" = none :=
  ⟨(claim_C10 (Json.obj [("title", Json.str "T"), ("score", Json.num 100)]) _ rfl).1,
   (claim_C10 (Json.obj [("title", Json.str "T"), ("score", Json.num 100)]) _ rfl).2.2
     "score" (by simp)⟩

/-- Claim C5: normalization is total on every well-formed or partially-empty
provider result object — it succeeds (never raises) and the output has
found = true. -/
theorem claim_C5 (fs : List (String × Json)) (h : wellFormedResult fs = true) :
    ∃ j, normalize_audd_result (Json.obj fs) = Except.ok j ∧
      jget j "found" = some (Json.bool true) := by
  simp only [wellFormedResult, Bool.and_eq_true] at h
  obtain ⟨⟨⟨ham, hdz⟩, hsp⟩, hspx⟩ := h
  obtain ⟨am, h1⟩ := pyGet_pyOrEmpty_ok _ "url" ham
  obtain ⟨ext, h2⟩ := pyGet_pyOrEmpty_ok _ "external_urls" hsp
  have hextOk : nestedOk ext = true := by
    revert h2 hsp hspx
    cases hsv : jlookup fs "spotify" with
    | none =>
      intro hspx hsp h2
      injection h2 with h5
      rw [← h5]
      rfl
    | some v =>
      intro hspx hsp h2
      by_cases hvt : jsonTruthy v = true
      · have hobj : isObj v = true := by
          simp only [nestedOk, Bool.or_eq_true, Bool.not_eq_true'] at hsp
          rcases hsp with hh | hh
          · exact hh
          · rw [hvt] at hh
            exact Bool.noConfusion hh
        obtain ⟨gs, rfl⟩ := isObj_exists v hobj
        have h2b : (Except.ok (jlookup gs "external_urls") :
            Except String (Option Json)) = Except.ok ext := by
          rw [← h2]
          simp [pyOrEmpty, hvt, pyGet]
        injection h2b with h5
        rw [← h5]
        simpa [spotifyInnerOk] using hspx
      · have hvf : jsonTruthy v = false := bool_eq_false _ hvt
        have h2b : (Except.ok (none : Option Json) :
            Except String (Option Json)) = Except.ok ext := by
          rw [← h2]
          simp [pyOrEmpty, hvf, pyGet, jlookup]
        injection h2b with h5
        rw [← h5]
        rfl
  obtain ⟨sp, h3⟩ := pyGet_pyOrEmpty_ok ext "spotify" hextOk
  obtain ⟨dz, h4⟩ := pyGet_pyOrEmpty_ok _ "link" hdz
  refine ⟨_, normalize_obj_eq fs _ (extract_links_eq fs am ext sp dz h1 h2 h3 h4), ?_⟩
  simp [jget, jlookup]

/-- Witness for C5 at a partially-empty result with a falsy nested field. -/
theorem claim_C5_witness :
    wellFormedResult [("title", Json.str "T"), ("spotify", Json.null)] = true ∧
    ∃ j, normalize_audd_result
        (Json.obj [("title", Json.str "T"), ("spotify", Json.null)]) = Except.ok j ∧
      jget j "found" = some (Json.bool true) :=
  ⟨rfl, claim_C5 [("title", Json.str "T"), ("spotify", Json.null)] rfl⟩

/-- Claim C6: link extraction follows the fixed nested chains, with the two
specified concrete instances, and each chain short-circuits to null when an
intermediate object is absent. -/
theorem claim_C6 :
    (normalize_audd_result (Json.obj
        [("apple_music", Json.obj [("url", Json.str "A")]),
         ("spotify", Json.obj [("external_urls", Json.obj [("spotify", Json.str "S")])]),
         ("deezer", Json.obj [("link", Json.str "D")]),
         ("song_link", Json.str "L")]) =
      Except.ok (Json.obj
        [("found", Json.bool true), ("title", Json.null), ("artist", Json.null),
         ("album", Json.null), ("release_date", Json.null), ("timecode", Json.null),
         ("links", Json.obj
           [("apple_music", Json.str "A"), ("spotify", Json.str "S"),
            ("deezer", Json.str "D"), ("audd", Json.str "L")])])) ∧
    (normalize_audd_result (Json.obj [("title", Json.str "T")]) =
      Except.ok (Json.obj
        [("found", Json.bool true), ("title", Json.str "T"), ("artist", Json.null),
         ("album", Json.null), ("release_date", Json.null), ("timecode", Json.null),
         ("links", Json.obj
           [("apple_music", Json.null), ("spotify", Json.null),
            ("deezer", Json.null), ("audd", Json.null)])])) ∧
    (∀ fs j, normalize_audd_result (Json.obj fs) = Except.ok j →
      (jlookup fs "apple_music" = none → linkOf j "apple_music" = some Json.null) ∧
      (jlookup fs "spotify" = none → linkOf j "spotify" = some Json.null) ∧
      (∀ gs, jlookup fs "spotify" = some (Json.obj gs) →
        jlookup gs "external_urls" = none → linkOf j "spotify" = some Json.null) ∧
      (jlookup fs "deezer" = none → linkOf j "deezer" = some Json.null) ∧
      (jlookup fs "song_link" = none → linkOf j "audd" = some Json.null)) := by
  refine ⟨rfl, rfl, ?_⟩
  intro fs j h
  rcases normalize_shape (Json.obj fs) j h with ⟨fs2, l, hfs2, hl, hj⟩
  injection hfs2 with hfs3
  subst hfs3
  rcases extract_links_shape fs l hl with ⟨am, ext, sp, dz, h1, h2, h3, h4, hlshape⟩
  subst hj
  subst hlshape
  refine ⟨?_, ?_, ?_, ?_, ?_⟩
  · intro ham
    rw [ham] at h1
    injection h1 with h5
    rw [← h5]
    simp [linkOf, jget, jlookup, noneToNull]
  · intro hsv
    rw [hsv] at h2
    injection h2 with h5
    rw [← h5] at h3
    injection h3 with h6
    rw [← h6]
    simp [linkOf, jget, jlookup, noneToNull]
  · intro gs hsv hext
    rw [hsv] at h2
    have hext2 : ext = none := by
      by_cases hgs : jsonTruthy (Json.obj gs) = true
      · have h2b : (Except.ok (jlookup gs "external_urls") :
            Except String (Option Json)) = Except.ok ext := by
          rw [← h2]
          simp [pyOrEmpty, hgs, pyGet]
        injection h2b with h5
        rw [← h5, hext]
      · have hgs2 : jsonTruthy (Json.obj gs) = false := bool_eq_false _ hgs
        have h2b : (Except.ok (none : Option Json) :
            Except String (Option Json)) = Except.ok ext := by
          rw [← h2]
          simp [pyOrEmpty, hgs2, pyGet, jlookup]
        injection h2b with h5
        rw [← h5]
    rw [hext2] at h3
    injection h3 with h6
    rw [← h6]
    simp [linkOf, jget, jlookup, noneToNull]
  · intro hdv
    rw [hdv] at h4
    injection h4 with h5
    rw [← h5]
    simp [linkOf, jget, jlookup, noneToNull]
  · intro hsl
    simp [linkOf, jget, jlookup, hsl, noneToNull]

/-- Witness for C6: the short-circuit part applied to the title-only result. -/
theorem claim_C6_witness :
    linkOf (Json.obj
        [("found", Json.bool true), ("title", Json.str "T"), ("artist", Json.null),
         ("album", Json.null), ("release_date", Json.null), ("timecode", Json.null),
         ("links", Json.obj
           [("apple_music", Json.null), ("spotify", Json.null),
            ("deezer", Json.null), ("audd", Json.null)])]) "apple_music" =
      some Json.null ∧
    linkOf (Json.obj
        [("found", Json.bool true), ("title", Json.str "T"), ("artist", Json.null),
         ("album", Json.null), ("release_date", Json.null), ("timecode", Json.null),
         ("links", Json.obj
           [("apple_music", Json.null), ("spotify", Json.null),
            ("deezer", Json.null), ("audd", Json.null)])]) "audd" =
      some Json.null :=
  ⟨(claim_C6.2.2 [("title", Json.str "T")] _ rfl).1 rfl,
   (claim_C6.2.2 [("title", Json.str "T")] _ rfl).2.2.2.2 rfl⟩

end AuddGateway
